import Mathlib

/-!
# Async Weather & News Dashboard — verification of the orchestration layer

Shallow embedding of the repository: the HTTP-GET-then-parse-JSON fetch
primitives (`src/utils/httpClient.ts` for the MVC tree, and the inline
fetch helpers of the standalone `callbackVersion.ts` /
`asyncAwaitVersion.ts` / promise version), the console view
(`src/views/dashboardView.ts`), and the three orchestration styles
(`callbackController.ts`, `promiseController.ts`, `asyncController.ts`).

Platform primitives the code calls (the `https` module, `JSON.parse`,
`Promise.all`, `Promise.race`, object spread) are modelled explicitly:
the response is a status code plus an ordered list of body chunks
followed by an end event, `JSON.parse` is an abstract
`String to Except String Json` parameter, and the promise combinators
take the two outcomes plus a boolean saying which of the two settled
first in wall-clock time.
-/

namespace Dashboard

/-- JSON values as produced by `JSON.parse`. Numbers are modelled as
integers; none of the verified properties depends on fractional values. -/
inductive Json where
  | null
  | bool (b : Bool)
  | num (n : Int)
  | str (s : String)
  | arr (elems : List Json)
  | obj (fields : List (String × Json))
deriving Repr

/-- JavaScript truthiness of a JSON value: null, false, 0 and the empty
string are falsy; arrays and objects (including empty ones) are truthy. -/
def jsTruthy : Json → Bool
  | .null => false
  | .bool b => b
  | .num n => n != 0
  | .str s => !s.isEmpty
  | .arr _ => true
  | .obj _ => true

/-- Property access `o?.k`: the field value when `o` is an object carrying
the key, otherwise `none` (undefined). Mirrors optional chaining. -/
def getField : Json → String → Option Json
  | .obj fs, k => fs.lookup k
  | _, _ => none

/-- String coercion used when a JSON value is spliced into console output.
Composite values are abbreviated; the verified properties never depend on
the rendering of arrays or objects. -/
def jsShow : Json → String
  | .null => "null"
  | .bool true => "true"
  | .bool false => "false"
  | .num n => toString n
  | .str s => s
  | .arr _ => "[array]"
  | .obj _ => "[object]"

/-- Rendering of `o.k` inside a template string: the field value when
present, the text "undefined" when absent, as JavaScript prints it. -/
def jsFieldShow (o : Json) (k : String) : String :=
  match getField o k with
  | some v => jsShow v
  | none => "undefined"

/-- Coercion of a JSON value to an article array. Payloads typed
`NewsArticle[]` are `.arr` values; a value outside that type contributes
no articles. -/
def jsArray : Json → List Json
  | .arr xs => xs
  | _ => []

/-- The nullish coalescing `v ?? []` applied to an optional field value:
`null` and a missing field both give the empty array. -/
def coalesceArr : Option Json → Json
  | some .null => .arr []
  | some j => j
  | none => .arr []

/-- The controllers' `newsData?.articles ?? []` extraction. -/
def newsArticles (nd : Json) : List Json :=
  jsArray (coalesceArr (getField nd "articles"))

/-- The standalone versions' `newsData?.posts ?? []` extraction. -/
def newsPosts (nd : Json) : List Json :=
  jsArray (coalesceArr (getField nd "posts"))

/-! ## View layer (`src/views/dashboardView.ts`)

Each display function is modelled as the list of console lines it prints,
one list element per `console.log` / `console.error` call. -/

/-- The `"=".repeat(50)` banner line. -/
def eqLine : String := String.mk (List.replicate 50 '=')

/-- The label prelude: `label ? "[label] " : ""` (truthy test on the
string, so empty label means no prelude). -/
def labelPfx (label : String) : String :=
  if label.isEmpty then "" else "[" ++ label ++ "] "

/-- `displayHeader` from the dashboard view. -/
def displayHeader (version : String) : List String :=
  ["\n" ++ eqLine,
   "🌦️  Async Weather & News Dashboard",
   "📋  Version: " ++ version,
   eqLine ++ "\n"]

/-- `displayWeather`: reads `data?.current_weather`, renders temperature
and wind speed when that value is truthy, otherwise the unavailability
notice. The configured city is Pretoria. -/
def displayWeather (data : Json) (label : String) : List String :=
  let p := labelPfx label
  match getField data "current_weather" with
  | some w =>
    if jsTruthy w then
      [p ++ "🌡️  Temperature in Pretoria: " ++ jsFieldShow w "temperature" ++ "°C",
       p ++ "💨  Wind Speed: " ++ jsFieldShow w "windspeed" ++ " km/h"]
    else
      [p ++ "⚠️  Weather data unavailable."]
  | none => [p ++ "⚠️  Weather data unavailable."]

/-- `displayNews`: a headline banner plus one numbered line per article
when the array is nonempty, otherwise the explicit no-articles notice. -/
def displayNews (articles : List Json) (label : String) : List String :=
  let p := labelPfx label
  if articles.length > 0 then
    ("\n" ++ p ++ "📰  Top News Headlines:") ::
      articles.enum.map (fun e =>
        "   " ++ toString (e.1 + 1) ++ ". " ++ jsFieldShow e.2 "title")
  else
    [p ++ "⚠️  No news articles available."]

/-- `displayFooter` from the dashboard view. -/
def displayFooter (version : String) : List String :=
  ["\n" ++ eqLine,
   "✅  " ++ version ++ " — Complete",
   eqLine ++ "\n"]

/-- `displayError`: the single error line written to standard error. -/
def displayError (context : String) (msg : String) : List String :=
  ["❌  Error [" ++ context ++ "]: " ++ msg]

/-! ## Fetch primitives

The callback of `httpGetJson` is error-first; each invocation of it is
one `CallbackCall`. The promise variant `httpGetJsonPromise` resolves or
rejects in the same places `httpGetJson` calls back, so the one model
covers both. A response is a status code and the ordered stream of body
events: the data chunks, then the end event. -/

/-- One invocation of the error-first callback (equivalently, one
settlement of the returned promise). -/
inductive CallbackCall where
  | failure (msg : String)
  | success (payload : Json)
deriving Repr

/-- One event of the streamed response body. -/
inductive ResEvent where
  | chunk (c : String)
  | ended
deriving Repr, DecidableEq

/-- The event stream of a response whose body arrives in `chunks`: the
data events in order, then the single end event. -/
def responseEvents (chunks : List String) : List ResEvent :=
  chunks.map .chunk ++ [.ended]

/-- The `res.on("data")` / `res.on("end")` handler pair: accumulate each
chunk onto the buffer, and run the end action on the full buffer at the
end event. Emissions happen only at the end event. -/
def runBody (onEnd : String → List CallbackCall) :
    List ResEvent → String → List CallbackCall
  | [], _ => []
  | .chunk c :: rest, acc => runBody onEnd rest (acc ++ c)
  | .ended :: rest, acc => onEnd acc ++ runBody onEnd rest acc

/-- The end action of the sub-400 path shared by every fetch helper:
parse the drained body, then call back with the parsed value on success
and with the parse error on failure. -/
def parseEnd (parse : String → Except String Json) (body : String) :
    List CallbackCall :=
  match parse body with
  | .ok v => [.success v]
  | .error e => [.failure e]

/-- `httpGetJson` of `src/utils/httpClient.ts`, response handling: on
status at least 400, drain the error body and call back once with a
message carrying the status code and the full body; otherwise drain the
body, then parse it. (`statusCode && statusCode >= 400` reduces to the
threshold test, a status of at least 400 being nonzero.) -/
def httpGetJson (status : Nat) (chunks : List String)
    (parse : String → Except String Json) : List CallbackCall :=
  if 400 ≤ status then
    runBody (fun body =>
        [.failure ("HTTP request failed with status " ++ toString status
          ++ ": " ++ body)])
      (responseEvents chunks) ""
  else
    runBody (parseEnd parse) (responseEvents chunks) ""

/-- `httpGetJsonPromise` of the same module: identical status, draining
and parse behaviour, with resolve/reject in place of the callback. -/
def httpGetJsonPromise (status : Nat) (chunks : List String)
    (parse : String → Except String Json) : List CallbackCall :=
  httpGetJson status chunks parse

/-- `httpsGetJson` of `src/callbackVersion.ts` (and, as
`httpsGetJsonPromise`, of the standalone async/await and promise
versions): on status at least 400 the callback fires immediately with a
message carrying only the status code, and `res.resume()` discards the
body; otherwise the sub-400 path is the same drain-then-parse. -/
def httpsGetJson (status : Nat) (chunks : List String)
    (parse : String → Except String Json) : List CallbackCall :=
  if 400 ≤ status then
    [.failure ("Request failed. Status code: " ++ toString status)]
  else
    runBody (parseEnd parse) (responseEvents chunks) ""

/-- The header object `{ "User-Agent": ..., ...custom }` built by both
httpClient helpers, as a key-to-value lookup. JavaScript object spread
puts the caller entries after the fixed one, so a caller entry under the
same key overrides it. -/
def requestHeaders (custom : List (String × String)) (k : String) :
    Option String :=
  match custom.lookup k with
  | some v => some v
  | none =>
    if k = "User-Agent" then some "AsyncWeatherNewsDashboard/1.0" else none

/-! ## Orchestrators

Every fetch, whichever style launched it, settles with one
`FetchOutcome`: the parsed payload, or the message of the error it was
rejected or called back with. Each orchestrator model is the list of
console lines the run prints, as a function of the outcomes of the
fetches it launches (and, for the concurrent combinators, of which fetch
settled first). -/

/-- The settled result of one fetch. -/
inductive FetchOutcome where
  | ok (payload : Json)
  | err (msg : String)
deriving Repr

/-- The aggregate of `Promise.all` over two promises. -/
inductive AllResult where
  | ok (a b : Json)
  | err (msg : String)
deriving Repr

/-- Semantics of `Promise.all [pa, pb]`: when both fulfil, the pair in
request order; when a promise rejects, the first rejection in settlement
order. `aFirst` says the first promise settled before the second. -/
def promiseAll2 (a b : FetchOutcome) (aFirst : Bool) : AllResult :=
  match a, b with
  | .ok x, .ok y => .ok x y
  | .err e, .ok _ => .err e
  | .ok _, .err e => .err e
  | .err e1, .err e2 => .err (if aFirst then e1 else e2)

/-- Semantics of `Promise.race [pa, pb]`: the outcome of whichever
settles first, fulfilment and rejection alike. -/
def promiseRace2 (a b : FetchOutcome) (aFirst : Bool) : FetchOutcome :=
  if aFirst then a else b

/-- The result of one run of `callbackController.ts`: the printed lines,
plus whether the news fetch (stage 2) and the second weather fetch
(stage 3) were ever invoked. -/
structure CallbackRun where
  output : List String
  newsInvoked : Bool
  secondWeatherInvoked : Bool
deriving Repr

/-- The nested-callback controller (`callbackController.ts`): header,
then weather, then — only inside the success branch of each callback —
news and the second weather fetch; each error branch prints the stage
error and returns, and the footer prints only after stage 3 succeeds. -/
def callbackControllerRun (w1 n w2 : FetchOutcome) : CallbackRun :=
  let hdr := displayHeader "Callback"
  match w1 with
  | .err e => ⟨hdr ++ displayError "Weather Fetch" e, false, false⟩
  | .ok wd =>
    let out1 := hdr ++ displayWeather wd "Callback"
    match n with
    | .err e2 => ⟨out1 ++ displayError "News Fetch" e2, true, false⟩
    | .ok nd =>
      let out2 := out1 ++ displayNews (newsArticles nd) "Callback"
      match w2 with
      | .err e3 => ⟨out2 ++ displayError "Second Weather Fetch" e3, true, true⟩
      | .ok w2d =>
        ⟨out2 ++ displayWeather w2d "Callback - Second Fetch"
            ++ displayFooter "Callback", true, true⟩

/-- The sequential promise chain of `promiseController.ts`: weather,
then news, then the completion line; one catch handles a failure from
any step. -/
def promiseSeqRun (w n : FetchOutcome) : List String :=
  match w with
  | .err e => displayError "Sequential Chain" e
  | .ok wd =>
    displayWeather wd "Promise - Sequential" ++
    match n with
    | .err e => displayError "Sequential Chain" e
    | .ok nd =>
      displayNews (newsArticles nd) "Promise - Sequential" ++
      ["\n✅  Sequential promise chain complete."]

/-- The `Promise.all` block of `promiseController.ts`: on aggregate
success, the banner then weather then news, destructured in request
order; on aggregate failure, the single catch line. -/
def promiseAllRun (w n : FetchOutcome) (wFirst : Bool) : List String :=
  match promiseAll2 w n wFirst with
  | .ok wd nd =>
    "\n--- Promise.all() Results (Parallel Fetch) ---" ::
      (displayWeather wd "Promise.all" ++
       displayNews (newsArticles nd) "Promise.all")
  | .err e => displayError "Promise.all" e

/-- The `Promise.race` block of `promiseController.ts`: the winner is
classified by shape — a truthy `current_weather` field renders weather, a
truthy `articles` field renders news, and a payload matching neither
prints nothing beyond the banner (the if/else-if chain has no else
branch); a winning rejection goes to the catch line. -/
def promiseRaceRun (w n : FetchOutcome) (wFirst : Bool) : List String :=
  match promiseRace2 w n wFirst with
  | .ok p =>
    "\n--- Promise.race() Winner (First Response) ---" ::
      (if (getField p "current_weather").any jsTruthy then
        "🏆  Weather API responded first!" :: displayWeather p "Promise.race"
      else if (getField p "articles").any jsTruthy then
        "🏆  News API responded first!" ::
          displayNews (jsArray ((getField p "articles").getD .null))
            "Promise.race"
      else [])
  | .err e => displayError "Promise.race" e

/-- The `Promise.race` block of the standalone promise version (the
second half of `asyncAwaitVersion.ts` as packaged): same shape test on
`current_weather` then `posts`, but with an else branch that prints the
unclassified winner. -/
def versionRaceRun (w n : FetchOutcome) (wFirst : Bool) : List String :=
  match promiseRace2 w n wFirst with
  | .ok p =>
    "--- Promise.race winner (first resolved) ---" ::
      (if (getField p "current_weather").any jsTruthy then
        ["Winner is weather. Temp: " ++
          jsFieldShow ((getField p "current_weather").getD .null) "temperature"]
      else if (getField p "posts").any jsTruthy then
        ["Winner is news. First headline: " ++
          (match (jsArray ((getField p "posts").getD .null)).head? with
           | some a => jsFieldShow a "title"
           | none => "undefined")]
      else ["Race winner: " ++ jsShow p])
  | .err e => ["Promise.race error: " ++ e]

/-- The async/await controller (`asyncController.ts`): header; await of
`Promise.all` over weather and news, rendered in request order on
success; then the supplementary weather fetch inside its own try/catch,
whose failure prints only its own error line; a failure of the awaited
`Promise.all` goes to the top-level catch; the footer prints in every
branch (finally). The supplementary outcome is irrelevant when the
aggregate fails, since that fetch is never started. -/
def asyncRun (w n add : FetchOutcome) (wFirst : Bool) : List String :=
  displayHeader "Async/Await" ++
  (match promiseAll2 w n wFirst with
   | .err e => displayError "Async/Await Run" e
   | .ok wd nd =>
     displayWeather wd "Async/Await" ++
     displayNews (newsArticles nd) "Async/Await" ++
     (match add with
      | .ok aw => displayWeather aw "Async/Await - Additional Fetch"
      | .err e => displayError "Additional Weather Fetch" e)) ++
  displayFooter "Async/Await"

/-- Substring containment on strings, used to state that an error
message carries the status code and the drained body. -/
def strContains (hay needle : String) : Prop :=
  needle.data <:+: hay.data

instance (hay needle : String) : Decidable (strContains hay needle) :=
  List.decidableInfix needle.data hay.data

/-! ## Behaviour of the body stream machine -/

/-- Processing data events alone emits no callback invocation: no
outcome is delivered before the end of the body. -/
theorem runBody_chunks (f : String → List CallbackCall)
    (cs : List String) (acc : String) :
    runBody f (cs.map .chunk) acc = [] := by
  induction cs generalizing acc with
  | nil => rfl
  | cons c cs ih => simpa [runBody] using ih (acc ++ c)

/-- Processing the whole event stream of a response runs the end action
exactly once, on the concatenation of every chunk onto the buffer. -/
theorem runBody_responseEvents (f : String → List CallbackCall)
    (cs : List String) (acc : String) :
    runBody f (responseEvents cs) acc = f (cs.foldl (· ++ ·) acc) := by
  induction cs generalizing acc with
  | nil => simp [responseEvents, runBody]
  | cons c cs ih => simpa [responseEvents, runBody] using ih (acc ++ c)

/-- The drained body of a response starting from the empty buffer is the
join of its chunks. -/
theorem join_eq_foldl (cs : List String) :
    String.join cs = cs.foldl (· ++ ·) "" := rfl

/-! ## Claims about the fetch primitives -/

/-- C1 (counterexample): at status 404 with the nonempty body chunk
"oops", the fetch primitive `httpsGetJson` of the standalone versions
produces a failure whose message does not contain the body — the claim
that every fetch primitive includes the full drained body is false. -/
theorem C1_counterexample :
    httpsGetJson 404 ["oops"] (fun _ => .error "unused") =
      [.failure "Request failed. Status code: 404"] ∧
    ¬ strContains "Request failed. Status code: 404" "oops" := by
  refine ⟨rfl, ?_⟩
  decide

/-- C1 (amended): for every status at least 400, every chunk list and
every parse function, the shared httpClient primitive `httpGetJson`
calls back exactly once with a failure whose message contains both the
status code and the full drained body; the inline `httpsGetJson` of the
standalone versions instead fails with a message carrying only the
status code, discarding the body. -/
theorem C1_theorem (status : Nat) (chunks : List String)
    (parse : String → Except String Json) (h : 400 ≤ status) :
    httpGetJson status chunks parse =
      [.failure ("HTTP request failed with status " ++ toString status
        ++ ": " ++ String.join chunks)] ∧
    strContains ("HTTP request failed with status " ++ toString status
        ++ ": " ++ String.join chunks) (toString status) ∧
    strContains ("HTTP request failed with status " ++ toString status
        ++ ": " ++ String.join chunks) (String.join chunks) ∧
    httpsGetJson status chunks parse =
      [.failure ("Request failed. Status code: " ++ toString status)] := by
  refine ⟨?_, ?_, ?_, ?_⟩
  · rw [httpGetJson, if_pos h, runBody_responseEvents, join_eq_foldl]
  · exact ⟨("HTTP request failed with status ").data,
      (": " ++ String.join chunks).data, by simp [String.data_append]⟩
  · exact ⟨("HTTP request failed with status " ++ toString status ++ ": ").data,
      [], by simp [String.data_append]⟩
  · rw [httpsGetJson, if_pos h]

/-- C1 (witness). -/
theorem C1_witness :
    httpGetJson 404 ["a", "b"] (fun _ => .error "x") =
      [.failure ("HTTP request failed with status " ++ toString 404
        ++ ": " ++ String.join ["a", "b"])] :=
  (C1_theorem 404 ["a", "b"] (fun _ => .error "x") (by decide)).1

/-- C2: for every status below 400, both fetch primitives drain the full
body (the join of all chunks, in order) and then parse it, calling back
exactly once — with the parsed payload on parse success and with the
parse diagnostic on parse failure — and no callback invocation happens
while body chunks are still arriving. -/
theorem C2_theorem (status : Nat) (chunks : List String)
    (parse : String → Except String Json) (h : status < 400) :
    httpGetJson status chunks parse =
      (match parse (String.join chunks) with
       | .ok v => [CallbackCall.success v]
       | .error e => [CallbackCall.failure e]) ∧
    httpsGetJson status chunks parse =
      (match parse (String.join chunks) with
       | .ok v => [CallbackCall.success v]
       | .error e => [CallbackCall.failure e]) ∧
    runBody (parseEnd parse) (chunks.map .chunk) "" = [] := by
  have hlt : ¬ 400 ≤ status := Nat.not_le.mpr h
  refine ⟨?_, ?_, runBody_chunks _ _ _⟩
  · rw [httpGetJson, if_neg hlt, runBody_responseEvents, join_eq_foldl]
    rfl
  · rw [httpsGetJson, if_neg hlt, runBody_responseEvents, join_eq_foldl]
    rfl

/-- C2 (witness): a two-chunk well-formed body parses to the payload. -/
theorem C2_witness :
    httpGetJson 200 ["[1,", "2]"]
        (fun s => if s = "[1,2]" then .ok (.arr [.num 1, .num 2])
                  else .error "Unexpected token") =
      (match (fun s => if s = "[1,2]" then Except.ok (Json.arr [.num 1, .num 2])
                       else Except.error "Unexpected token")
          (String.join ["[1,", "2]"]) with
       | .ok v => [CallbackCall.success v]
       | .error e => [CallbackCall.failure e]) :=
  (C2_theorem 200 ["[1,", "2]"]
    (fun s => if s = "[1,2]" then .ok (.arr [.num 1, .num 2])
              else .error "Unexpected token") (by decide)).1

/-! ## Claims about the orchestrators -/

/-- C3: in the nested-callback controller, when the first weather fetch
fails, the news fetch and the second weather fetch are never invoked and
the run prints only the header and the stage-one error, whatever the
other two outcomes would have been. -/
theorem C3_theorem (e : String) (n w2 : FetchOutcome) :
    callbackControllerRun (.err e) n w2 =
      ⟨displayHeader "Callback" ++ displayError "Weather Fetch" e,
       false, false⟩ := rfl

/-- C4: for the parallel-all orchestrator, when both fetches succeed the
aggregate renders the banner then weather then news in request order,
for either settlement order; when either fetch fails, the aggregate is
that failure (the first-settled one when both fail); and the async
controller output over a doubly successful aggregate is independent of
settlement order. -/
theorem C4_theorem :
    (∀ (wd nd : Json) (b : Bool),
      promiseAllRun (.ok wd) (.ok nd) b =
        "\n--- Promise.all() Results (Parallel Fetch) ---" ::
          (displayWeather wd "Promise.all" ++
           displayNews (newsArticles nd) "Promise.all")) ∧
    (∀ (e : String) (nd : Json) (b : Bool),
      promiseAllRun (.err e) (.ok nd) b = displayError "Promise.all" e) ∧
    (∀ (wd : Json) (e : String) (b : Bool),
      promiseAllRun (.ok wd) (.err e) b = displayError "Promise.all" e) ∧
    (∀ e1 e2 : String,
      promiseAllRun (.err e1) (.err e2) true = displayError "Promise.all" e1 ∧
      promiseAllRun (.err e1) (.err e2) false = displayError "Promise.all" e2) ∧
    (∀ (wd nd : Json) (add : FetchOutcome) (b b2 : Bool),
      asyncRun (.ok wd) (.ok nd) add b = asyncRun (.ok wd) (.ok nd) add b2) :=
  ⟨fun _ _ _ => rfl, fun _ _ _ => rfl, fun _ _ _ => rfl,
   fun _ _ => ⟨rfl, rfl⟩, fun _ _ _ _ _ => rfl⟩

/-- C5: both race orchestrators settle with the first-settling outcome —
a rejection settles the race just like a fulfilment — and the eventual
outcome of the losing fetch has no effect on the rendered output. -/
theorem C5_theorem :
    (∀ a b b2 : FetchOutcome,
      promiseRaceRun a b true = promiseRaceRun a b2 true) ∧
    (∀ a a2 b : FetchOutcome,
      promiseRaceRun a b false = promiseRaceRun a2 b false) ∧
    (∀ (e : String) (b : FetchOutcome),
      promiseRaceRun (.err e) b true = displayError "Promise.race" e) ∧
    (∀ (a : FetchOutcome) (e : String),
      promiseRaceRun a (.err e) false = displayError "Promise.race" e) ∧
    (∀ a b b2 : FetchOutcome,
      versionRaceRun a b true = versionRaceRun a b2 true) ∧
    (∀ a a2 b : FetchOutcome,
      versionRaceRun a b false = versionRaceRun a2 b false) ∧
    (∀ (e : String) (b : FetchOutcome),
      versionRaceRun (.err e) b true = ["Promise.race error: " ++ e]) :=
  ⟨fun _ _ _ => rfl, fun _ _ _ => rfl, fun _ _ => rfl, fun _ _ => rfl,
   fun _ _ _ => rfl, fun _ _ _ => rfl, fun _ _ => rfl⟩

/-- C6: in the async controller, when the parallel stage succeeds and the
supplementary weather fetch fails, the lines rendered for weather and
news are exactly the ones of a fully successful run, followed by the
supplementary error line, and the footer still prints — the failure does
not abort the run. -/
theorem C6_theorem (wd nd aw : Json) (e : String) (b : Bool) :
    asyncRun (.ok wd) (.ok nd) (.err e) b =
      displayHeader "Async/Await" ++
        (displayWeather wd "Async/Await" ++
         displayNews (newsArticles nd) "Async/Await" ++
         displayError "Additional Weather Fetch" e) ++
      displayFooter "Async/Await" ∧
    asyncRun (.ok wd) (.ok nd) (.ok aw) b =
      displayHeader "Async/Await" ++
        (displayWeather wd "Async/Await" ++
         displayNews (newsArticles nd) "Async/Await" ++
         displayWeather aw "Async/Await - Additional Fetch") ++
      displayFooter "Async/Await" := ⟨rfl, rfl⟩

/-! ## Claims about header merging, shape fallback and the view -/

/-- C7 (counterexample): a caller map carrying the key User-Agent
overrides the fixed identifying header — object spread puts caller
entries last — so the sent headers do not contain the original value. -/
theorem C7_counterexample :
    requestHeaders [("User-Agent", "custom-agent/2.0")] "User-Agent" =
      some "custom-agent/2.0" ∧
    "custom-agent/2.0" ≠ "AsyncWeatherNewsDashboard/1.0" := by
  exact ⟨rfl, by decide⟩

/-- C7 (amended): for every caller header map not carrying the key
User-Agent, the sent headers map that key to the fixed identifying value
and every caller entry survives under its own key. -/
theorem C7_theorem (custom : List (String × String))
    (h : custom.lookup "User-Agent" = none) :
    requestHeaders custom "User-Agent" =
      some "AsyncWeatherNewsDashboard/1.0" ∧
    ∀ k v : String, custom.lookup k = some v →
      requestHeaders custom k = some v := by
  constructor
  · simp [requestHeaders, h]
  · intro k v hkv
    simp [requestHeaders, hkv]

/-- C7 (witness). -/
theorem C7_witness :
    requestHeaders [("X-Api-Key", "abc")] "User-Agent" =
      some "AsyncWeatherNewsDashboard/1.0" :=
  (C7_theorem [("X-Api-Key", "abc")] rfl).1

/-- C8 (counterexample): when the winning payload matches neither shape,
the race block of the MVC promise controller prints the banner and
nothing else — no output is produced for the unclassified winner, so the
claim fails on that orchestrator. -/
theorem C8_counterexample :
    promiseRaceRun (.ok (Json.obj [("foo", Json.num 1)])) (.ok .null) true =
      ["\n--- Promise.race() Winner (First Response) ---"] := rfl

/-- C8 (amended): for a winning payload with no truthy current_weather,
articles or posts field, the standalone promise version renders it as an
unclassified winner via its Race winner line, while the MVC promise
controller prints only the banner and silently skips the payload; both
produce a well-defined output without crashing. -/
theorem C8_theorem (p : Json) (b : FetchOutcome)
    (h1 : (getField p "current_weather").any jsTruthy = false)
    (h2 : (getField p "articles").any jsTruthy = false)
    (h3 : (getField p "posts").any jsTruthy = false) :
    promiseRaceRun (.ok p) b true =
      ["\n--- Promise.race() Winner (First Response) ---"] ∧
    versionRaceRun (.ok p) b true =
      ["--- Promise.race winner (first resolved) ---",
       "Race winner: " ++ jsShow p] := by
  constructor
  · simp [promiseRaceRun, promiseRace2, h1, h2]
  · simp [versionRaceRun, promiseRace2, h1, h3]

/-- C8 (witness). -/
theorem C8_witness :
    versionRaceRun (.ok (Json.obj [("foo", Json.num 1)])) (.ok .null) true =
      ["--- Promise.race winner (first resolved) ---",
       "Race winner: " ++ jsShow (Json.obj [("foo", Json.num 1)])] :=
  (C8_theorem (Json.obj [("foo", Json.num 1)]) (.ok .null) rfl rfl rfl).2

/-- C9: the display functions are total and never silent — every input
yields at least one line — an empty article list renders the explicit
no-articles notice, and a payload with no current_weather field renders
the explicit unavailability notice. -/
theorem C9_theorem :
    (∀ lbl : String, displayNews [] lbl =
      [labelPfx lbl ++ "⚠️  No news articles available."]) ∧
    (∀ (data : Json) (lbl : String), getField data "current_weather" = none →
      displayWeather data lbl =
        [labelPfx lbl ++ "⚠️  Weather data unavailable."]) ∧
    (∀ (arts : List Json) (lbl : String), displayNews arts lbl ≠ []) ∧
    (∀ (data : Json) (lbl : String), displayWeather data lbl ≠ []) := by
  refine ⟨fun lbl => rfl, ?_, ?_, ?_⟩
  · intro data lbl h
    simp [displayWeather, h]
  · intro arts lbl
    cases arts <;> simp [displayNews]
  · intro data lbl
    rw [displayWeather]
    cases getField data "current_weather" with
    | none => simp
    | some w => cases hw : jsTruthy w <;> simp [hw]

/-- C9 (witness). -/
theorem C9_witness :
    displayWeather (Json.obj []) "L" =
      [labelPfx "L" ++ "⚠️  Weather data unavailable."] :=
  C9_theorem.2.1 (Json.obj []) "L" rfl

/-- C10: a successful news payload with no articles field is defaulted
to the empty article list, so the nested-callback controller, the async
controller and the sequential promise chain all render the no-articles
notice in place of the headlines and still run to completion (the later
stages and the footer still print); the standalone versions default a
missing posts field the same way. -/
theorem C10_theorem (wd nd w2 aw : Json) (b : Bool)
    (h : getField nd "articles" = none) :
    newsArticles nd = [] ∧
    callbackControllerRun (.ok wd) (.ok nd) (.ok w2) =
      ⟨displayHeader "Callback" ++ displayWeather wd "Callback" ++
        [labelPfx "Callback" ++ "⚠️  No news articles available."] ++
        displayWeather w2 "Callback - Second Fetch" ++
        displayFooter "Callback", true, true⟩ ∧
    asyncRun (.ok wd) (.ok nd) (.ok aw) b =
      displayHeader "Async/Await" ++
        (displayWeather wd "Async/Await" ++
         [labelPfx "Async/Await" ++ "⚠️  No news articles available."] ++
         displayWeather aw "Async/Await - Additional Fetch") ++
      displayFooter "Async/Await" ∧
    promiseSeqRun (.ok wd) (.ok nd) =
      displayWeather wd "Promise - Sequential" ++
        [labelPfx "Promise - Sequential" ++ "⚠️  No news articles available."] ++
        ["\n✅  Sequential promise chain complete."] ∧
    (∀ m : Json, getField m "posts" = none → newsPosts m = []) := by
  have harts : newsArticles nd = [] := by
    simp [newsArticles, coalesceArr, h, jsArray]
  refine ⟨harts, ?_, ?_, ?_, ?_⟩
  · simp [callbackControllerRun, harts, displayNews, labelPfx]
  · simp [asyncRun, promiseAll2, harts, displayNews, labelPfx]
  · simp [promiseSeqRun, harts, displayNews, labelPfx]
  · intro m hm
    simp [newsPosts, coalesceArr, hm, jsArray]

/-- C10 (witness). -/
theorem C10_witness :
    newsArticles (Json.obj [("status", Json.str "ok")]) = [] :=
  (C10_theorem .null (Json.obj [("status", Json.str "ok")]) .null .null true
    rfl).1

end Dashboard
